import Mathlib

/-! Verification of the vocal-range / transposition calculation core of the
vocal-app repository.  The repository carries two copies of the class
`VocalRangeCalculator`: one in `src/vocal_app.py` (embedded below in
namespace `VocalApp`) and one in `src/app.py` (namespace `App`).

Python strings are modelled as Lean `String`; the string primitives the
source uses (`str.upper`, `str.replace` with one-character patterns,
`str.endswith` with a one-character suffix, `dict.get`) are modelled once,
over the underlying character list, so that they evaluate by kernel
reduction.  Python integers are `Int`; Python `//` and `%` (floor division,
non-negative remainder for positive divisors) coincide with Lean's `Int`
division and modulus for the positive divisors used here.  A Python
function that can raise becomes `Option`-valued.
-/

/-- Python `str.upper` restricted to the characters that occur in the
note-name inputs: ASCII letters are uppercased and the accented vowels of
the Portuguese note names map to their uppercase forms. -/
def pyUpperChar (c : Char) : Char :=
  if c = 'ó' then 'Ó' else if c = 'á' then 'Á' else if c = 'é' then 'É' else c.toUpper

/-- Python `str.upper` on a whole string. -/
def pyUpper (s : String) : String :=
  String.mk (s.data.map pyUpperChar)

/-- Python `str.replace(pat, rep)` for one-character pattern and replacement. -/
def replaceChar (s : String) (pat rep : Char) : String :=
  String.mk (s.data.map (fun c => if c = pat then rep else c))

/-- Python `str.replace(pat, "")` for a one-character pattern. -/
def dropChar (s : String) (pat : Char) : String :=
  String.mk (s.data.filter (fun c => c != pat))

/-- Python `str.endswith(c)` for a one-character suffix. -/
def endsWithChar (s : String) (c : Char) : Bool :=
  s.data.getLast? == some c

/-- Python `dict.get(k, d)` over an association list kept in source order. -/
def lookupD (table : List (String × String)) (k d : String) : String :=
  match table.find? (fun p => p.1 == k) with
  | some p => p.2
  | none => d

/-- Python `k in dict` over an association list. -/
def hasKey (table : List (String × String)) (k : String) : Bool :=
  (table.find? (fun p => p.1 == k)).isSome

/-- Python `round(d / 2)` for an integer `d`: exact halves are resolved to
the nearest even integer, as in Python 3 `round`. -/
def roundHalfEvenDiv2 (d : Int) : Int :=
  if d % 2 = 0 then d / 2
  else
    let lo := (d - 1) / 2
    if lo % 2 = 0 then lo else lo + 1

/-- The dictionary returned by `define_vocal_range`. -/
structure VocalRange where
  lowest : Int
  highest : Int
  range : Int
  lowest_note : String
  highest_note : String
deriving DecidableEq

/-- The dictionary returned by `define_song_range`. -/
structure SongRange where
  lowest : Int
  highest : Int
  range : Int
  lowest_note : String
  highest_note : String
  original_key : Option String
deriving DecidableEq

/-- One entry of the list built by `calculate_transpositions`. -/
structure TranspEntry where
  transposition : Int
  new_key : String
  margin_low : Int
  margin_high : Int
deriving DecidableEq

namespace VocalApp

/-- Constant `NOTES_EN` of src/vocal_app.py. -/
def NOTES_EN : List String :=
  ["C", "C#", "D", "D#", "E", "F"] ++ ["F#", "G", "G#", "A", "A#", "B"]

/-- Constant `NOTES_PT` of src/vocal_app.py. -/
def NOTES_PT : List String :=
  ["Dó", "Dó#", "Ré", "Ré#", "Mi", "Fá", "Fá#", "Sol", "Sol#", "Lá", "Lá#", "Si"]

/-- Constant `MAJOR_KEYS` of src/vocal_app.py. -/
def MAJOR_KEYS : List String :=
  ["C", "G", "D", "A", "E", "B", "F#", "C#", "F", "Bb", "Eb", "Ab", "Db", "Gb", "Cb"]

/-- Constant `MINOR_KEYS` of src/vocal_app.py. -/
def MINOR_KEYS : List String :=
  ["Am", "Em", "Bm", "F#m", "C#m", "G#m", "D#m", "A#m", "Dm", "Gm", "Cm", "Fm",
   "Bbm", "Ebm", "Abm"]

/-- Table `self.keys_pt` of src/vocal_app.py. -/
def keys_pt : List (String × String) :=
  [("C", "Dó Maior"), ("G", "Sol Maior"), ("D", "Ré Maior"), ("A", "Lá Maior"),
   ("E", "Mi Maior"), ("B", "Si Maior"), ("F#", "Fá# Maior"), ("C#", "Dó# Maior"),
   ("F", "Fá Maior"), ("Bb", "Sib Maior"), ("Eb", "Mib Maior"), ("Ab", "Láb Maior"),
   ("Db", "Réb Maior"), ("Gb", "Solb Maior"), ("Cb", "Dób Maior"),
   ("Am", "Lá menor"), ("Em", "Mi menor"), ("Bm", "Si menor"), ("F#m", "Fá# menor"),
   ("C#m", "Dó# menor"), ("G#m", "Sol# menor"), ("D#m", "Ré# menor"), ("A#m", "Lá# menor"),
   ("Dm", "Ré menor"), ("Gm", "Sol menor"), ("Cm", "Dó menor"), ("Fm", "Fá menor"),
   ("Bbm", "Sib menor"), ("Ebm", "Mib menor"), ("Abm", "Láb menor")]

/-- The `pt_to_en` table inside `note_to_number` of src/vocal_app.py. -/
def pt_to_en : List (String × String) :=
  [("DO", "C"), ("DÓ", "C"), ("C", "C"),
   ("DO#", "C#"), ("DÓ#", "C#"), ("C#", "C#"),
   ("RE", "D"), ("RÉ", "D"), ("D", "D"),
   ("RE#", "D#"), ("RÉ#", "D#"), ("D#", "D#"),
   ("MI", "E"), ("E", "E"),
   ("FA", "F"), ("FÁ", "F"), ("F", "F"),
   ("FA#", "F#"), ("FÁ#", "F#"), ("F#", "F#"),
   ("SOL", "G"), ("G", "G"),
   ("SOL#", "G#"), ("G#", "G#"),
   ("LA", "A"), ("LÁ", "A"), ("A", "A"),
   ("LA#", "A#"), ("LÁ#", "A#"), ("A#", "A#"),
   ("SI", "B"), ("B", "B")]

/-- Method `note_to_number` of src/vocal_app.py: uppercase the input, turn the
accented `Ó` into `O`, look the result up in `pt_to_en` (falling back to the
string itself), and fail (`None`, for the raised `ValueError`) when the
outcome is not a canonical English note name. -/
def note_to_number (note : String) (octave : Int) : Option Int :=
  let note_upper := replaceChar (pyUpper note) 'Ó' 'O'
  let note_en := lookupD pt_to_en note_upper note_upper
  if NOTES_EN.contains note_en then
    some (octave * 12 + (NOTES_EN.indexOf note_en : Int))
  else
    none

/-- Method `number_to_note` of src/vocal_app.py. -/
def number_to_note (number : Int) : String × Int :=
  (NOTES_PT.getD (number % 12).toNat "", number / 12)

/-- The `key_mapping` table inside `transpose_key` of src/vocal_app.py. -/
def key_mapping : List (String × String) :=
  [("Bb", "A#"), ("Eb", "D#"), ("Ab", "G#"), ("Db", "C#"), ("Gb", "F#")]

/-- The `common_keys` table inside `transpose_key` of src/vocal_app.py. -/
def common_keys : List (String × String) :=
  [("A#", "Bb"), ("C#", "Db"), ("D#", "Eb"), ("F#", "Gb"), ("G#", "Ab")]

/-- The input-processing half of `transpose_key` of src/vocal_app.py: detect
the minor marker, strip it, map the five flat spellings to sharps, and
return the tonic's index in `NOTES_EN` together with the minor flag; `none`
when the tonic is unrecognized (the code then returns the key unchanged). -/
def parseKey (original_key : String) : Option (Int × Bool) :=
  let is_minor := endsWithChar original_key 'm'
  let base_key0 := if is_minor then dropChar original_key 'm' else original_key
  let base_key :=
    if NOTES_EN.contains base_key0 then base_key0
    else lookupD key_mapping base_key0 base_key0
  if NOTES_EN.contains base_key then
    some ((NOTES_EN.indexOf base_key : Int), is_minor)
  else
    none

/-- The output half of `transpose_key` of src/vocal_app.py: spell the pitch
class `new_index`, rewriting a sharp black key to its flat name for major
keys only, and re-append the minor marker. -/
def spellAt (new_index : Int) (is_minor : Bool) : String :=
  let new_key := NOTES_EN.getD new_index.toNat ""
  let new_key2 :=
    if !is_minor && hasKey common_keys new_key then lookupD common_keys new_key new_key
    else new_key
  new_key2 ++ (if is_minor then "m" else "")

/-- Method `transpose_key` of src/vocal_app.py. -/
def transpose_key (original_key : String) (semitones : Int) : String :=
  match parseKey original_key with
  | some (key_index, is_minor) => spellAt ((key_index + semitones) % 12) is_minor
  | none => original_key

/-- Method `define_vocal_range` of src/vocal_app.py. -/
def define_vocal_range (lowest_note : String) (lowest_octave : Int)
    (highest_note : String) (highest_octave : Int) : Option VocalRange :=
  match note_to_number lowest_note lowest_octave,
        note_to_number highest_note highest_octave with
  | some lowest_num, some highest_num =>
      some { lowest := lowest_num, highest := highest_num,
             range := highest_num - lowest_num,
             lowest_note := lowest_note ++ toString lowest_octave,
             highest_note := highest_note ++ toString highest_octave }
  | _, _ => none

/-- Method `define_song_range` of src/vocal_app.py. -/
def define_song_range (lowest_note : String) (lowest_octave : Int)
    (highest_note : String) (highest_octave : Int)
    (original_key : Option String) : Option SongRange :=
  match note_to_number lowest_note lowest_octave,
        note_to_number highest_note highest_octave with
  | some lowest_num, some highest_num =>
      some { lowest := lowest_num, highest := highest_num,
             range := highest_num - lowest_num,
             lowest_note := lowest_note ++ toString lowest_octave,
             highest_note := highest_note ++ toString highest_octave,
             original_key := original_key }
  | _, _ => none

/-- Method `check_compatibility` of src/vocal_app.py. -/
def check_compatibility (vocal_range : VocalRange) (song_range : SongRange) : Bool :=
  decide (song_range.range ≤ vocal_range.range)

/-- Method `calculate_transposition` of src/vocal_app.py.  Note that
`transposed_lowest` and `transposed_highest` are computed from the base
centering shift once, before either margin adjustment, and are not
recomputed after the first adjustment changes `center_transpose`. -/
def calculate_transposition (vocal_range : VocalRange) (song_range : SongRange)
    (comfort_margin : Int) : Option Int × String × Option String :=
  if !check_compatibility vocal_range song_range then
    (none, "A extensão da música é maior que a extensão vocal do cantor", none)
  else
    let center_transpose := roundHalfEvenDiv2
      ((vocal_range.lowest + vocal_range.highest) - (song_range.lowest + song_range.highest))
    let transposed_lowest := song_range.lowest + center_transpose
    let transposed_highest := song_range.highest + center_transpose
    let ct1 :=
      if transposed_lowest < vocal_range.lowest + comfort_margin then
        center_transpose + (vocal_range.lowest + comfort_margin - transposed_lowest)
      else center_transpose
    let ct2 :=
      if transposed_highest > vocal_range.highest - comfort_margin then
        ct1 - (transposed_highest - (vocal_range.highest - comfort_margin))
      else ct1
    let new_key : Option String :=
      match song_range.original_key with
      | some k => if k = "" then none else some (transpose_key k ct2)
      | none => none
    (some ct2, "Transposição calculada com sucesso", new_key)

/-- Method `semitones_to_key` of src/vocal_app.py. -/
def semitones_to_key (semitones : Int) : String :=
  if semitones > 0 then "+" ++ toString semitones ++ " semitons (mais agudo)"
  else if semitones < 0 then toString semitones ++ " semitons (mais grave)"
  else "Tom original (sem transposição)"

/-- Method `get_key_name_pt` of src/vocal_app.py. -/
def get_key_name_pt (key : String) : String :=
  lookupD keys_pt key key

/-- Method `calculate_transpositions` of src/vocal_app.py: try every offset in
`range(-6, 7)` around the centering shift, keep those whose shifted
boundaries respect the comfort margin, sort the survivors descending by
total margin (a stable sort, as Python's), and return the first three. -/
def calculate_transpositions (original_key : String) (vocal_range : VocalRange)
    (song_range : SongRange) (comfort_margin : Int) : List TranspEntry :=
  if !check_compatibility vocal_range song_range then []
  else
    let center_transpose := roundHalfEvenDiv2
      ((vocal_range.lowest + vocal_range.highest) - (song_range.lowest + song_range.highest))
    let valid_transpositions := ((List.range 13).map (fun n => (n : Int) - 6)).filterMap
      (fun offset =>
        let transpose := center_transpose + offset
        let transposed_lowest := song_range.lowest + transpose
        let transposed_highest := song_range.highest + transpose
        if transposed_lowest ≥ vocal_range.lowest + comfort_margin ∧
            transposed_highest ≤ vocal_range.highest - comfort_margin then
          some { transposition := transpose,
                 new_key := transpose_key original_key transpose,
                 margin_low := transposed_lowest - vocal_range.lowest,
                 margin_high := vocal_range.highest - transposed_highest }
        else none)
    (List.insertionSort
      (fun a b => b.margin_low + b.margin_high ≤ a.margin_low + a.margin_high)
      valid_transpositions).take 3

end VocalApp

namespace App

/-- Attribute `self.notes` of src/app.py. -/
def notes : List String :=
  ["C", "C#", "D", "D#", "E", "F"] ++ ["F#", "G", "G#", "A", "A#", "B"]

/-- Attribute `self.note_names_pt` of src/app.py. -/
def note_names_pt : List String :=
  ["Dó", "Dó#", "Ré", "Ré#", "Mi", "Fá", "Fá#", "Sol", "Sol#", "Lá", "Lá#", "Si"]

/-- Attribute `self.major_keys` of src/app.py. -/
def major_keys : List String :=
  ["C", "G", "D", "A", "E", "B", "F#", "C#", "F", "Bb", "Eb", "Ab", "Db", "Gb", "Cb"]

/-- Attribute `self.minor_keys` of src/app.py. -/
def minor_keys : List String :=
  ["Am", "Em", "Bm", "F#m", "C#m", "G#m", "D#m", "A#m", "Dm", "Gm", "Cm", "Fm",
   "Bbm", "Ebm", "Abm"]

/-- Table `self.keys_pt` of src/app.py. -/
def keys_pt : List (String × String) :=
  [("C", "Dó Maior"), ("G", "Sol Maior"), ("D", "Ré Maior"), ("A", "Lá Maior"),
   ("E", "Mi Maior"), ("B", "Si Maior"), ("F#", "Fá# Maior"), ("C#", "Dó# Maior"),
   ("F", "Fá Maior"), ("Bb", "Sib Maior"), ("Eb", "Mib Maior"), ("Ab", "Láb Maior"),
   ("Db", "Réb Maior"), ("Gb", "Solb Maior"), ("Cb", "Dób Maior"),
   ("Am", "Lá menor"), ("Em", "Mi menor"), ("Bm", "Si menor"), ("F#m", "Fá# menor"),
   ("C#m", "Dó# menor"), ("G#m", "Sol# menor"), ("D#m", "Ré# menor"), ("A#m", "Lá# menor"),
   ("Dm", "Ré menor"), ("Gm", "Sol menor"), ("Cm", "Dó menor"), ("Fm", "Fá menor"),
   ("Bbm", "Sib menor"), ("Ebm", "Mib menor"), ("Abm", "Láb menor")]

/-- The `pt_to_en` table inside `note_to_number` of src/app.py. -/
def pt_to_en : List (String × String) :=
  [("DO", "C"), ("DÓ", "C"), ("C", "C"),
   ("DO#", "C#"), ("DÓ#", "C#"), ("C#", "C#"),
   ("RE", "D"), ("RÉ", "D"), ("D", "D"),
   ("RE#", "D#"), ("RÉ#", "D#"), ("D#", "D#"),
   ("MI", "E"), ("E", "E"),
   ("FA", "F"), ("FÁ", "F"), ("F", "F"),
   ("FA#", "F#"), ("FÁ#", "F#"), ("F#", "F#"),
   ("SOL", "G"), ("G", "G"),
   ("SOL#", "G#"), ("G#", "G#"),
   ("LA", "A"), ("LÁ", "A"), ("A", "A"),
   ("LA#", "A#"), ("LÁ#", "A#"), ("A#", "A#"),
   ("SI", "B"), ("B", "B")]

/-- Method `note_to_number` of src/app.py. -/
def note_to_number (note : String) (octave : Int) : Option Int :=
  let note_upper := replaceChar (pyUpper note) 'Ó' 'O'
  let note_en := lookupD pt_to_en note_upper note_upper
  if notes.contains note_en then
    some (octave * 12 + (notes.indexOf note_en : Int))
  else
    none

/-- Method `number_to_note` of src/app.py. -/
def number_to_note (number : Int) : String × Int :=
  (note_names_pt.getD (number % 12).toNat "", number / 12)

/-- The `key_mapping` table inside `transpose_key` of src/app.py. -/
def key_mapping : List (String × String) :=
  [("Bb", "A#"), ("Eb", "D#"), ("Ab", "G#"), ("Db", "C#"), ("Gb", "F#")]

/-- The `common_keys` table inside `transpose_key` of src/app.py. -/
def common_keys : List (String × String) :=
  [("A#", "Bb"), ("C#", "Db"), ("D#", "Eb"), ("F#", "Gb"), ("G#", "Ab")]

/-- The input-processing half of `transpose_key` of src/app.py. -/
def parseKey (original_key : String) : Option (Int × Bool) :=
  let is_minor := endsWithChar original_key 'm'
  let base_key0 := if is_minor then dropChar original_key 'm' else original_key
  let base_key :=
    if notes.contains base_key0 then base_key0
    else lookupD key_mapping base_key0 base_key0
  if notes.contains base_key then
    some ((notes.indexOf base_key : Int), is_minor)
  else
    none

/-- The output half of `transpose_key` of src/app.py. -/
def spellAt (new_index : Int) (is_minor : Bool) : String :=
  let new_key := notes.getD new_index.toNat ""
  let new_key2 :=
    if !is_minor && hasKey common_keys new_key then lookupD common_keys new_key new_key
    else new_key
  new_key2 ++ (if is_minor then "m" else "")

/-- Method `transpose_key` of src/app.py. -/
def transpose_key (original_key : String) (semitones : Int) : String :=
  match parseKey original_key with
  | some (key_index, is_minor) => spellAt ((key_index + semitones) % 12) is_minor
  | none => original_key

/-- Method `define_vocal_range` of src/app.py. -/
def define_vocal_range (lowest_note : String) (lowest_octave : Int)
    (highest_note : String) (highest_octave : Int) : Option VocalRange :=
  match note_to_number lowest_note lowest_octave,
        note_to_number highest_note highest_octave with
  | some lowest_num, some highest_num =>
      some { lowest := lowest_num, highest := highest_num,
             range := highest_num - lowest_num,
             lowest_note := lowest_note ++ toString lowest_octave,
             highest_note := highest_note ++ toString highest_octave }
  | _, _ => none

/-- Method `define_song_range` of src/app.py. -/
def define_song_range (lowest_note : String) (lowest_octave : Int)
    (highest_note : String) (highest_octave : Int)
    (original_key : Option String) : Option SongRange :=
  match note_to_number lowest_note lowest_octave,
        note_to_number highest_note highest_octave with
  | some lowest_num, some highest_num =>
      some { lowest := lowest_num, highest := highest_num,
             range := highest_num - lowest_num,
             lowest_note := lowest_note ++ toString lowest_octave,
             highest_note := highest_note ++ toString highest_octave,
             original_key := original_key }
  | _, _ => none

/-- Method `check_compatibility` of src/app.py. -/
def check_compatibility (vocal_range : VocalRange) (song_range : SongRange) : Bool :=
  decide (song_range.range ≤ vocal_range.range)

/-- Method `calculate_transposition` of src/app.py. -/
def calculate_transposition (vocal_range : VocalRange) (song_range : SongRange)
    (comfort_margin : Int) : Option Int × String × Option String :=
  if !check_compatibility vocal_range song_range then
    (none, "A extensão da música é maior que a extensão vocal do cantor", none)
  else
    let center_transpose := roundHalfEvenDiv2
      ((vocal_range.lowest + vocal_range.highest) - (song_range.lowest + song_range.highest))
    let transposed_lowest := song_range.lowest + center_transpose
    let transposed_highest := song_range.highest + center_transpose
    let ct1 :=
      if transposed_lowest < vocal_range.lowest + comfort_margin then
        center_transpose + (vocal_range.lowest + comfort_margin - transposed_lowest)
      else center_transpose
    let ct2 :=
      if transposed_highest > vocal_range.highest - comfort_margin then
        ct1 - (transposed_highest - (vocal_range.highest - comfort_margin))
      else ct1
    let new_key : Option String :=
      match song_range.original_key with
      | some k => if k = "" then none else some (transpose_key k ct2)
      | none => none
    (some ct2, "Transposição calculada com sucesso", new_key)

/-- Method `semitones_to_key` of src/app.py. -/
def semitones_to_key (semitones : Int) : String :=
  if semitones > 0 then "+" ++ toString semitones ++ " semitons (mais agudo)"
  else if semitones < 0 then toString semitones ++ " semitons (mais grave)"
  else "Tom original (sem transposição)"

/-- Method `get_key_name_pt` of src/app.py. -/
def get_key_name_pt (key : String) : String :=
  lookupD keys_pt key key

end App

/-- The documented alias spellings accepted by the pitch codec, enumerated
from the specification: English letter names, Portuguese names with and
without accents, in capitalized, lower-case and upper-case form, each with
and without the sharp marker. -/
def documentedAliases : List String :=
  ["C", "D", "E", "F", "G", "A", "B", "C#", "D#", "F#", "G#", "A#",
   "c", "d", "e", "f", "g", "a", "b", "c#", "d#", "f#", "g#", "a#",
   "Dó", "Dó#", "Ré", "Ré#", "Mi", "Fá", "Fá#", "Sol", "Sol#", "Lá", "Lá#", "Si",
   "Do", "Do#", "Re", "Re#", "Mi", "Fa", "Fa#", "Sol", "Sol#", "La", "La#", "Si",
   "dó", "dó#", "ré", "ré#", "mi", "fá", "fá#", "sol", "sol#", "lá", "lá#", "si",
   "do", "do#", "re", "re#", "mi", "fa", "fa#", "sol", "sol#", "la", "la#", "si",
   "DÓ", "DÓ#", "RÉ", "RÉ#", "MI", "FÁ", "FÁ#", "SOL", "SOL#", "LÁ", "LÁ#", "SI",
   "DO", "DO#", "RE", "RE#", "MI", "FA", "FA#", "SOL", "SOL#", "LA", "LA#", "SI"]


namespace VocalApp

/-- A string contained in the twelve-element `NOTES_EN` has index below 12. -/
theorem indexOf_lt_twelve {s : String} (h : NOTES_EN.contains s = true) :
    NOTES_EN.indexOf s < 12 := by
  have hm : s ∈ NOTES_EN := by simpa using h
  have hlt := List.indexOf_lt_length.mpr hm
  simpa using hlt

/-- The final lookup step of `parseKey`: when it succeeds, the returned
index is the position of some note name in `NOTES_EN`, hence in `[0, 12)`. -/
theorem parse_step_bounds {s : String} {mFlag : Bool} {i : Int} {m : Bool}
    (h : (if NOTES_EN.contains s then some ((NOTES_EN.indexOf s : Int), mFlag) else none) =
      some (i, m)) :
    0 ≤ i ∧ i < 12 := by
  split at h
  · rename_i hc
    have hlt := indexOf_lt_twelve hc
    injection h with h
    cases h
    exact ⟨Int.natCast_nonneg _, by exact_mod_cast hlt⟩
  · exact absurd h (by simp)

/-- The tonic index produced by the key-parsing half of `transpose_key` is a
pitch class: it lies in `[0, 12)`. -/
theorem parseKey_bounds {k : String} {i : Int} {m : Bool}
    (h : parseKey k = some (i, m)) : 0 ≤ i ∧ i < 12 := by
  simp only [parseKey] at h
  exact parse_step_bounds h

/-- On a recognized key, `transpose_key` spells the shifted pitch class. -/
theorem transpose_key_parse {k : String} {i : Int} {m : Bool}
    (h : parseKey k = some (i, m)) (a : Int) :
    transpose_key k a = spellAt ((i + a) % 12) m := by
  unfold transpose_key
  rw [h]

/-- The spelling produced by `transpose_key` parses back to the same pitch
class and mode: flats map back through `key_mapping`, sharps are canonical. -/
theorem parseKey_spellAt (j : Int) (h0 : 0 ≤ j) (h12 : j < 12) (m : Bool) :
    parseKey (spellAt j m) = some (j, m) := by
  interval_cases j <;> cases m <;> decide

/-- Whether `note_to_number` succeeds depends only on the note string. -/
theorem note_to_number_isSome_const (s : String) (o : Int) :
    (note_to_number s o).isSome = (note_to_number s 0).isSome := by
  simp only [note_to_number]
  split <;> rfl

end VocalApp

/-- C10: the two copies of `VocalRangeCalculator` are behaviorally
equivalent — each of the nine methods of the class in src/app.py is
extensionally (indeed definitionally) equal to the identically named method
of the class in src/vocal_app.py. -/
theorem app_copy_equivalent :
    App.note_to_number = VocalApp.note_to_number ∧
    App.number_to_note = VocalApp.number_to_note ∧
    App.transpose_key = VocalApp.transpose_key ∧
    App.define_vocal_range = VocalApp.define_vocal_range ∧
    App.define_song_range = VocalApp.define_song_range ∧
    App.check_compatibility = VocalApp.check_compatibility ∧
    App.calculate_transposition = VocalApp.calculate_transposition ∧
    App.semitones_to_key = VocalApp.semitones_to_key ∧
    App.get_key_name_pt = VocalApp.get_key_name_pt :=
  ⟨rfl, rfl, rfl, rfl, rfl, rfl, rfl, rfl, rfl⟩

/-- C2 counterexample: `transpose_key` is not the identity at zero semitones
on every listed key: the listed major key `C#` comes back respelled as
`Db`. -/
theorem transpose_key_zero_not_identity :
    VocalApp.transpose_key "C#" 0 ≠ "C#" ∧ "C#" ∈ VocalApp.MAJOR_KEYS := by decide

/-- C2 amended: `transpose_key "C" 12 = "C"`, and `transpose_key k 0 = k`
for the listed keys whose spelling survives the enharmonic policy — all
major keys except `F#` and `C#` and all minor keys except `Bbm`, `Ebm` and
`Abm`; those five come back as the enharmonic respellings `Gb`, `Db`,
`A#m`, `D#m` and `G#m` (same pitch class and mode, different spelling). -/
theorem transpose_key_identity :
    VocalApp.transpose_key "C" 12 = "C" ∧
    (["C", "G", "D", "A", "E", "B", "F", "Bb", "Eb", "Ab", "Db", "Gb", "Cb",
      "Am", "Em", "Bm", "F#m", "C#m", "G#m", "D#m", "A#m", "Dm", "Gm", "Cm", "Fm"].all
      (fun k => VocalApp.transpose_key k 0 == k)) = true ∧
    VocalApp.transpose_key "F#" 0 = "Gb" ∧
    VocalApp.transpose_key "C#" 0 = "Db" ∧
    VocalApp.transpose_key "Bbm" 0 = "A#m" ∧
    VocalApp.transpose_key "Ebm" 0 = "D#m" ∧
    VocalApp.transpose_key "Abm" 0 = "G#m" := by decide

/-- C3: when the transposed tonic of a recognized key lands on one of the
five black-key pitch classes (indices 1, 3, 6, 8, 10), a major key is
spelled with the conventional flat name while a minor key keeps the sharp
spelling; in particular `transpose_key "C" 1 = "Db"` and
`transpose_key "Am" 1 = "A#m"`. -/
theorem transpose_key_enharmonic_asymmetry (k : String) (i : Int) (m : Bool) (a : Int)
    (h : VocalApp.parseKey k = some (i, m)) :
    ((i + a) % 12 = 1 → VocalApp.transpose_key k a = if m then "C#m" else "Db") ∧
    ((i + a) % 12 = 3 → VocalApp.transpose_key k a = if m then "D#m" else "Eb") ∧
    ((i + a) % 12 = 6 → VocalApp.transpose_key k a = if m then "F#m" else "Gb") ∧
    ((i + a) % 12 = 8 → VocalApp.transpose_key k a = if m then "G#m" else "Ab") ∧
    ((i + a) % 12 = 10 → VocalApp.transpose_key k a = if m then "A#m" else "Bb") ∧
    VocalApp.transpose_key "C" 1 = "Db" ∧ VocalApp.transpose_key "Am" 1 = "A#m" := by
  rw [VocalApp.transpose_key_parse h a]
  refine ⟨?_, ?_, ?_, ?_, ?_, by decide, by decide⟩ <;>
    · intro hj
      rw [hj]
      cases m <;> decide

/-- Witness for C3 at the concrete input `k = "C"`, `a = 1`. -/
theorem transpose_key_enharmonic_asymmetry_witness :
    VocalApp.parseKey "C" = some (0, false) ∧ VocalApp.transpose_key "C" 1 = "Db" := by
  refine ⟨by decide, ?_⟩
  have h := transpose_key_enharmonic_asymmetry "C" 0 false 1 (by decide)
  exact h.1 (by decide)

/-- C6 counterexample: the flat spelling `Bb` is not accepted by
`note_to_number`; at octave 0 the claim expects pitch index 10, but the
code raises `ValueError` (modelled as `none`). -/
theorem note_to_number_rejects_flats :
    VocalApp.note_to_number "Bb" 0 = none ∧ VocalApp.note_to_number "Bb" 0 ≠ some 10 := by
  decide

/-- C6 amended: the five flat spellings are rejected by `note_to_number`
(at every octave), and the flat-to-sharp alias table lives in
`transpose_key`, whose parsing half maps each flat spelling to the pitch
class of its sharp equivalent. -/
theorem flat_aliases_only_in_transpose_key :
    (∀ o : Int,
      VocalApp.note_to_number "Bb" o = none ∧ VocalApp.note_to_number "Eb" o = none ∧
      VocalApp.note_to_number "Ab" o = none ∧ VocalApp.note_to_number "Db" o = none ∧
      VocalApp.note_to_number "Gb" o = none) ∧
    VocalApp.parseKey "Bb" = some (10, false) ∧
    VocalApp.parseKey "Eb" = some (3, false) ∧
    VocalApp.parseKey "Ab" = some (8, false) ∧
    VocalApp.parseKey "Db" = some (1, false) ∧
    VocalApp.parseKey "Gb" = some (6, false) := by
  exact ⟨fun o => ⟨rfl, rfl, rfl, rfl, rfl⟩, by decide, by decide, by decide, by decide,
    by decide⟩

/-- C4: round-trip of the pitch codec — whenever `note_to_number` accepts a
note name at an octave `o` with `0 ≤ o ≤ 8`, feeding the resulting pitch
index to `number_to_note` returns the canonical Portuguese display name of
its pitch class together with the same octave `o`. -/
theorem note_codec_roundtrip (s : String) (o n : Int)
    (h0 : 0 ≤ o) (h8 : o ≤ 8)
    (h : VocalApp.note_to_number s o = some n) :
    VocalApp.number_to_note n = (VocalApp.NOTES_PT.getD ((n % 12).toNat) "", o) := by
  simp only [VocalApp.note_to_number] at h
  split at h
  · rename_i hc
    have hlt := VocalApp.indexOf_lt_twelve hc
    injection h with hn
    simp only [VocalApp.number_to_note, Prod.mk.injEq]
    exact ⟨trivial, by omega⟩
  · exact absurd h (by simp)

/-- Witness for C4 at the concrete input `"Dó"`, octave 4. -/
theorem note_codec_roundtrip_witness :
    VocalApp.note_to_number "Dó" 4 = some 48 ∧
    VocalApp.number_to_note 48 = (VocalApp.NOTES_PT.getD (((48 : Int) % 12).toNat) "", 4) :=
  ⟨by decide, note_codec_roundtrip "Dó" 4 48 (by decide) (by decide) (by decide)⟩

/-- C7: `note_to_number` accepts every documented alias spelling (at every
octave) and rejects strings outside the alias table, e.g. `"H"`, by raising
(modelled as `none`) — there is no silent fallback. -/
theorem note_to_number_alias_domain :
    (∀ s ∈ documentedAliases, ∀ o : Int, (VocalApp.note_to_number s o).isSome = true) ∧
    (∀ o : Int, VocalApp.note_to_number "H" o = none) := by
  constructor
  · intro s hs o
    rw [VocalApp.note_to_number_isSome_const]
    exact (by decide : ∀ s ∈ documentedAliases, (VocalApp.note_to_number s 0).isSome = true)
      s hs
  · intro o
    rfl

/-- Witness for C7 at the concrete alias `"dó"` and octave 3. -/
theorem note_to_number_alias_domain_witness :
    ("dó" ∈ documentedAliases) ∧ (VocalApp.note_to_number "dó" 3).isSome = true :=
  ⟨by decide, note_to_number_alias_domain.1 "dó" (by decide) 3⟩

/-- C8: on every key recognized by the transposer, `transpose_key` composes
— transposing by `a` then by `b` produces exactly the same key string as
transposing by `a + b` (so in particular the same pitch class and mode),
and transposing by `a` then by `-a` returns a key that parses to the same
pitch class and mode as the original. -/
theorem transpose_key_compose (k : String) (i : Int) (m : Bool) (a b : Int)
    (h : VocalApp.parseKey k = some (i, m)) :
    VocalApp.transpose_key (VocalApp.transpose_key k a) b =
      VocalApp.transpose_key k (a + b) ∧
    VocalApp.parseKey (VocalApp.transpose_key (VocalApp.transpose_key k a) (-a)) =
      VocalApp.parseKey k := by
  obtain ⟨h0, h12⟩ := VocalApp.parseKey_bounds h
  have hj : 0 ≤ (i + a) % 12 ∧ (i + a) % 12 < 12 := by omega
  have hp := VocalApp.parseKey_spellAt ((i + a) % 12) hj.1 hj.2 m
  constructor
  · rw [VocalApp.transpose_key_parse h a, VocalApp.transpose_key_parse hp b,
      VocalApp.transpose_key_parse h (a + b)]
    congr 1
    omega
  · rw [VocalApp.transpose_key_parse h a, VocalApp.transpose_key_parse hp (-a), h]
    have he : ((i + a) % 12 + -a) % 12 = i := by omega
    rw [he]
    exact VocalApp.parseKey_spellAt i h0 h12 m

/-- Witness for C8 at the concrete input `k = "Bb"`, `a = 3`, `b = -5`. -/
theorem transpose_key_compose_witness :
    VocalApp.parseKey "Bb" = some (10, false) ∧
    VocalApp.transpose_key (VocalApp.transpose_key "Bb" 3) (-5) =
      VocalApp.transpose_key "Bb" (3 + -5) ∧
    VocalApp.parseKey (VocalApp.transpose_key (VocalApp.transpose_key "Bb" 3) (-3)) =
      VocalApp.parseKey "Bb" := by
  have h1 := transpose_key_compose "Bb" 10 false 3 (-5) (by decide)
  have h2 := transpose_key_compose "Bb" 10 false 3 (-3) (by decide)
  exact ⟨by decide, h1.1, h2.2⟩

/-- C1 counterexample: at voice range `[0, 10]`, song range `[0, 10]` and
comfort margin 3 both margin adjustments trigger.  The base shift is
`roundHalfEvenDiv2 ((0 + 10) - (0 + 10)) = 0` (second conjunct), so the
claim's formula gives `base + adjLow - adjHigh` with
`adjLow = (0 + 3) - (0 + 0) = 3` and, with the low fix folded in,
`adjHigh = (10 + 0 + 3) - (10 - 3) = 6`, i.e. a final shift of `-3`; the
code instead computes the high fix against the unadjusted boundary and
returns shift `0`. -/
theorem calculate_transposition_foldin_false :
    (VocalApp.calculate_transposition ⟨0, 10, 10, "", ""⟩ ⟨0, 10, 10, "", "", none⟩ 3).1 =
      some 0 ∧
    roundHalfEvenDiv2 ((0 + 10) - (0 + 10)) = 0 ∧
    (VocalApp.calculate_transposition ⟨0, 10, 10, "", ""⟩ ⟨0, 10, 10, "", "", none⟩ 3).1 ≠
      some (0 + ((0 + 3) - (0 + 0)) - ((10 + 0 + ((0 + 3) - (0 + 0))) - (10 - 3))) := by
  decide

/-- C1 amended: for every compatible voice range, song range and comfort
margin, the low-margin adjustment is applied first and the high-margin
adjustment second, but both are computed against the boundaries shifted by
the base centering shift alone: the high-margin deficit does not fold in
the low-margin shift change, so the final shift is
`base + max 0 adjLow - max 0 adjHigh` with
`adjLow = (voice.lowest + m) - (song.lowest + base)` and
`adjHigh = (song.highest + base) - (voice.highest - m)`. -/
theorem calculate_transposition_adjustment_order (vr : VocalRange) (sr : SongRange)
    (m base adjLow adjHigh : Int)
    (hcomp : VocalApp.check_compatibility vr sr = true)
    (hbase : base = roundHalfEvenDiv2 ((vr.lowest + vr.highest) - (sr.lowest + sr.highest)))
    (hlow : adjLow = (vr.lowest + m) - (sr.lowest + base))
    (hhigh : adjHigh = (sr.highest + base) - (vr.highest - m)) :
    (VocalApp.calculate_transposition vr sr m).1 =
      some (base + max 0 adjLow - max 0 adjHigh) := by
  subst hbase
  subst hlow
  subst hhigh
  simp only [VocalApp.calculate_transposition, hcomp, Bool.not_true, Bool.false_eq_true,
    if_false]
  simp only [max_def]
  split_ifs <;> simp only [Option.some.injEq] <;> omega

/-- Witness for C1 (amended) at voice `[24, 55]`, song `[41, 62]`, margin 2:
the base shift is `-12` and neither adjustment triggers. -/
theorem calculate_transposition_adjustment_order_witness :
    VocalApp.check_compatibility ⟨24, 55, 31, "", ""⟩ ⟨41, 62, 21, "", "", some "C"⟩ = true ∧
    (VocalApp.calculate_transposition ⟨24, 55, 31, "", ""⟩
      ⟨41, 62, 21, "", "", some "C"⟩ 2).1 = some (-12 + max 0 (-3) - max 0 (-3)) := by
  refine ⟨by decide, ?_⟩
  exact calculate_transposition_adjustment_order ⟨24, 55, 31, "", ""⟩
    ⟨41, 62, 21, "", "", some "C"⟩ 2 (-12) (-3) (-3)
    (by decide) (by decide) (by decide) (by decide)

/-- C9 (implicit): whenever the comfort margin fits in the spare span —
the spans are non-negative, the margin is non-negative and
`song.range + 2 * m ≤ voice.range` — the shift returned by
`calculate_transposition` places both shifted song boundaries inside the
margin-adjusted voice range. -/
theorem calculate_transposition_margin_sound (vr : VocalRange) (sr : SongRange) (m : Int)
    (hwv : vr.range = vr.highest - vr.lowest) (hws : sr.range = sr.highest - sr.lowest)
    (hv : 0 ≤ vr.range) (hs : 0 ≤ sr.range) (hm : 0 ≤ m)
    (hfit : sr.range + 2 * m ≤ vr.range) :
    ∃ t, (VocalApp.calculate_transposition vr sr m).1 = some t ∧
      vr.lowest + m ≤ sr.lowest + t ∧ sr.highest + t ≤ vr.highest - m := by
  have hcomp : VocalApp.check_compatibility vr sr = true := by
    simp only [VocalApp.check_compatibility, decide_eq_true_eq]
    omega
  simp only [VocalApp.calculate_transposition, hcomp, Bool.not_true, Bool.false_eq_true,
    if_false]
  refine ⟨_, rfl, ?_, ?_⟩ <;> (split_ifs <;> omega)

/-- Witness for C9 at voice `[24, 55]` (span 31), song `[41, 62]` (span 21),
margin 2: the returned shift is `-12` and both margins hold. -/
theorem calculate_transposition_margin_sound_witness :
    (VocalApp.calculate_transposition ⟨24, 55, 31, "", ""⟩
      ⟨41, 62, 21, "", "", some "C"⟩ 2).1 = some (-12) ∧
    (24 : Int) + 2 ≤ 41 + (-12) ∧ (62 : Int) + (-12) ≤ 55 - 2 := by
  obtain ⟨t, h1, h2, h3⟩ :=
    calculate_transposition_margin_sound ⟨24, 55, 31, "", ""⟩ ⟨41, 62, 21, "", "", some "C"⟩
      2 (by decide) (by decide) (by decide) (by decide) (by decide) (by decide)
  have h0 : (VocalApp.calculate_transposition ⟨24, 55, 31, "", ""⟩
      ⟨41, 62, 21, "", "", some "C"⟩ 2).1 = some (-12) := by decide
  have ht : t = -12 := Option.some.inj (h1.symm.trans h0)
  subst ht
  exact ⟨h1, h2, h3⟩

/-- C5: postcondition of `calculate_transpositions` — the returned list has
at most 3 entries; every entry's shifted song boundaries lie within the
margin-adjusted voice range; the list is pairwise sorted descending by
`margin_low + margin_high`; and the list is empty whenever the song span
exceeds the voice span. -/
theorem calculate_transpositions_post (ok : String) (vr : VocalRange) (sr : SongRange)
    (m : Int) :
    (VocalApp.calculate_transpositions ok vr sr m).length ≤ 3 ∧
    (∀ e ∈ VocalApp.calculate_transpositions ok vr sr m,
      vr.lowest + m ≤ sr.lowest + e.transposition ∧
      sr.highest + e.transposition ≤ vr.highest - m) ∧
    List.Pairwise
      (fun a b : TranspEntry => b.margin_low + b.margin_high ≤ a.margin_low + a.margin_high)
      (VocalApp.calculate_transpositions ok vr sr m) ∧
    (vr.range < sr.range → VocalApp.calculate_transpositions ok vr sr m = []) := by
  haveI : IsTotal TranspEntry
      (fun a b => b.margin_low + b.margin_high ≤ a.margin_low + a.margin_high) :=
    ⟨fun a b => le_total _ _⟩
  haveI : IsTrans TranspEntry
      (fun a b => b.margin_low + b.margin_high ≤ a.margin_low + a.margin_high) :=
    ⟨fun a b c h1 h2 => le_trans h2 h1⟩
  simp only [VocalApp.calculate_transpositions]
  split_ifs with hcomp
  · exact ⟨by simp, by simp, by simp, fun hlt => rfl⟩
  · have hc : VocalApp.check_compatibility vr sr = true := by
      rcases Bool.eq_false_or_eq_true (VocalApp.check_compatibility vr sr) with hT | hF
      · exact hT
      · exact absurd (by rw [hF]; rfl) hcomp
    refine ⟨List.length_take_le _ _, ?_, ?_, ?_⟩
    · intro e he
      have h1 := List.take_subset _ _ he
      have h2 := (List.perm_insertionSort _ _).mem_iff.mp h1
      obtain ⟨off, hoff, hfe⟩ := List.mem_filterMap.mp h2
      split_ifs at hfe with hcond
      · injection hfe with hfe
        subst hfe
        exact ⟨hcond.1, hcond.2⟩
    · exact List.Pairwise.sublist (List.take_sublist _ _) (List.sorted_insertionSort _ _)
    · intro hlt
      exfalso
      simp only [VocalApp.check_compatibility, decide_eq_true_eq] at hc
      omega

/-- Witness for C5: at voice `[24, 55]`, song `[41, 62]`, margin 2, the
entry with shift `-15` is returned and respects both margins; at the
incompatible pair voice `[0, 5]`, song `[0, 10]` the list is empty. -/
theorem calculate_transpositions_post_witness :
    ((⟨-15, "A", 2, 8⟩ : TranspEntry) ∈
      VocalApp.calculate_transpositions "C" ⟨24, 55, 31, "", ""⟩
        ⟨41, 62, 21, "", "", some "C"⟩ 2) ∧
    (24 : Int) + 2 ≤ 41 + (-15) ∧ (62 : Int) + (-15) ≤ 55 - 2 ∧
    VocalApp.calculate_transpositions "C" ⟨0, 5, 5, "", ""⟩ ⟨0, 10, 10, "", "", some "C"⟩ 0 =
      [] := by
  have h := calculate_transpositions_post "C" ⟨24, 55, 31, "", ""⟩
    ⟨41, 62, 21, "", "", some "C"⟩ 2
  have h2 := calculate_transpositions_post "C" ⟨0, 5, 5, "", ""⟩
    ⟨0, 10, 10, "", "", some "C"⟩ 0
  have hmem : (⟨-15, "A", 2, 8⟩ : TranspEntry) ∈
      VocalApp.calculate_transpositions "C" ⟨24, 55, 31, "", ""⟩
        ⟨41, 62, 21, "", "", some "C"⟩ 2 := by decide
  obtain ⟨hl, hr⟩ := h.2.1 _ hmem
  exact ⟨hmem, hl, hr, h2.2.2.2 (by decide)⟩
